import Mathlib

set_option maxRecDepth 8000

/-!
Verification development for the station-64 BBS core
(src/bbs/petscii.py, src/bbs/screen.py, src/bbs/core.py, src/bbs/server.py).

Python strings are modelled as Lean `String` (a structure wrapping
`List Char`); Python `bytes` are modelled as `List Nat` with values below
256.  Python dictionaries are modelled as association lists in insertion
order, with the later-entry-wins behaviour of dict comprehensions made
explicit where it matters (the reverse PETSCII map).  Async functions in
the source never suspend between the state changes modelled here, so each
is embedded as a pure function from the old session to the new session
plus its produced text.
-/

/-! ### Python string primitives used by the source -/

/-- Whitespace test backing Python `str.strip` (the ASCII whitespace
characters; the source only ever strips ASCII input lines). -/
def pyIsSpace (c : Char) : Bool :=
  c = ' ' ∨ c = '\t' ∨ c = '\n' ∨ c = '\r' ∨ c = '\x0b' ∨ c = '\x0c'

/-- Python `s.strip()`: drop leading and trailing whitespace. -/
def pyStrip (s : String) : String :=
  String.mk (((s.data.dropWhile pyIsSpace).reverse.dropWhile pyIsSpace).reverse)

/-- Python `s.upper()` (ASCII letters; the source uppercases command
tokens). -/
def pyUpper (s : String) : String :=
  String.mk (s.data.map Char.toUpper)

/-- Python `s * n` for a string `s` (used for `'='*40`, `PETSCII_HLINE*36`,
`' '*padding`, ...). -/
def strRepeat (s : String) (n : Nat) : String :=
  String.mk (List.flatten (List.replicate n s.data))

/-- Python `needle in hay` substring containment. -/
def strContainsSub (hay needle : String) : Bool :=
  (List.range (hay.data.length + 1)).any (fun i => needle.data.isPrefixOf (hay.data.drop i))

/-- Python `s.split(c)` on a single-character separator, at the level of
character lists.  Always returns at least one (possibly empty) part. -/
def splitChar (c : Char) : List Char → List (List Char)
  | [] => [[]]
  | a :: rest =>
    if a = c then [] :: splitChar c rest
    else
      match splitChar c rest with
      | g :: gs => (a :: g) :: gs
      | [] => [[a]]

/-- Python `sep.join(parts)` at the level of character lists. -/
def joinSep (sep : List Char) : List (List Char) → List Char
  | [] => []
  | [g] => g
  | g :: g2 :: gs => g ++ sep ++ joinSep sep (g2 :: gs)

/-- Python `text.split('\n')`. -/
def pySplitLines (text : String) : List String :=
  (splitChar '\n' text.data).map String.mk

/-- Python `'\n'.join(parts)`. -/
def pyJoinLines (parts : List String) : String :=
  String.mk (joinSep ['\n'] (parts.map String.data))

/-! ### Character codec (src/bbs/petscii.py) -/

/-- `PETSCII_TO_UNICODE` (petscii.py lines 17-283).  The source writes the
256 entries out one by one; the runs of identical entries are collapsed
into range tests here, entry by entry:
0x00 ↦ NUL; 0x0D ↦ CR; 0x1B ↦ bracket; the other controls 0x01-0x1F ↦
space; 0x20-0x7F ↦ the identical ASCII character (the source lists each);
0x80-0x9F ↦ space (control placeholders, including 0x93 Clear);
0xA1/0xB1 ↦ left half block, 0xA2/0xB2 ↦ lower half, 0xA3/0xB3 ↦ upper
half, 0xB0 ↦ right half, 0xC0-0xC2 ↦ shades, 0xC4-0xCE ↦ box drawing,
0xFF ↦ pi, and every remaining graphic code 0xA0, 0xA4-0xAF, 0xB4-0xBF,
0xC3, 0xCF-0xFE ↦ full block. -/
def PETSCII_TO_UNICODE (b : Nat) : Option Char :=
  if 256 ≤ b then none
  else some (
    if b = 0x00 then '\x00'
    else if b = 0x0D then '\r'
    else if b = 0x1B then '['
    else if b ≤ 0x1F then ' '
    else if b ≤ 0x7F then Char.ofNat b
    else if b ≤ 0x9F then ' '
    else if b = 0xA1 ∨ b = 0xB1 then '▌'
    else if b = 0xA2 ∨ b = 0xB2 then '▄'
    else if b = 0xA3 ∨ b = 0xB3 then '▀'
    else if b = 0xB0 then '▐'
    else if b = 0xC0 then '░'
    else if b = 0xC1 then '▒'
    else if b = 0xC2 then '▓'
    else if b = 0xC4 then '─'
    else if b = 0xC5 then '│'
    else if b = 0xC6 then '┌'
    else if b = 0xC7 then '┐'
    else if b = 0xC8 then '└'
    else if b = 0xC9 then '┘'
    else if b = 0xCA then '├'
    else if b = 0xCB then '┤'
    else if b = 0xCC then '┬'
    else if b = 0xCD then '┴'
    else if b = 0xCE then '┼'
    else if b = 0xFF then 'π'
    else '█')

/-- `UNICODE_TO_PETSCII = {v: k for k, v in PETSCII_TO_UNICODE.items() if v}`
(petscii.py line 286).  Dict insertion order is the ascending key order of
the literal, and a later entry with the same value overwrites an earlier
one; every value is a non-empty one-character string so the `if v` filter
drops nothing.  Modelled as a left fold over the 256 keys. -/
def UNICODE_TO_PETSCII (c : Char) : Option Nat :=
  (List.range 256).foldl
    (fun acc k =>
      match PETSCII_TO_UNICODE k with
      | some v => if v = c then some k else acc
      | none => acc)
    none

/-- `petscii_to_unicode` (petscii.py lines 289-291):
`PETSCII_TO_UNICODE.get(byte, chr(byte))`. -/
def petscii_to_unicode (byte : Nat) : Char :=
  (PETSCII_TO_UNICODE byte).getD (Char.ofNat byte)

/-- `unicode_to_petscii` (petscii.py lines 294-298).  The `len(char) != 1`
guard cannot fire for a Lean `Char`; then
`UNICODE_TO_PETSCII.get(char, ord(char) if ord(char) < 256 else ord('?'))`. -/
def unicode_to_petscii (char : Char) : Nat :=
  match UNICODE_TO_PETSCII char with
  | some b => b
  | none => if char.toNat < 256 then char.toNat else 0x3F

/-- `decode_petscii` (petscii.py lines 301-303). -/
def decode_petscii (data : List Nat) : List Char :=
  data.map petscii_to_unicode

/-- `encode_petscii` (petscii.py lines 306-308). -/
def encode_petscii (text : List Char) : List Nat :=
  text.map unicode_to_petscii

/-! ### Connection types and colors (src/bbs/core.py lines 15-18,
src/bbs/screen.py lines 8-53) -/

/-- `ConnectionType` enum (core.py lines 15-18). -/
inductive ConnectionType where
  | telnet
  | web
deriving DecidableEq, Repr

/-- `C64Color` enum (screen.py lines 8-25). -/
inductive C64Color where
  | black | white | red | cyan | purple | green | blue | yellow
  | orange | brown | light_red | dark_grey | grey | light_green
  | light_blue | light_grey
deriving DecidableEq, Repr

/-- `ANSI_COLORS` (screen.py lines 29-46): a 16-entry palette-to-SGR
table.  Every color has an entry, so the `.get(color, '')` lookups in the
source never fall back. -/
def ANSI_COLORS : C64Color → String
  | C64Color.black => "\x1b[30m"
  | C64Color.white => "\x1b[37m"
  | C64Color.red => "\x1b[31m"
  | C64Color.cyan => "\x1b[36m"
  | C64Color.purple => "\x1b[35m"
  | C64Color.green => "\x1b[32m"
  | C64Color.blue => "\x1b[34m"
  | C64Color.yellow => "\x1b[33m"
  | C64Color.orange => "\x1b[38;5;208m"
  | C64Color.brown => "\x1b[38;5;130m"
  | C64Color.light_red => "\x1b[91m"
  | C64Color.dark_grey => "\x1b[90m"
  | C64Color.grey => "\x1b[37m"
  | C64Color.light_green => "\x1b[92m"
  | C64Color.light_blue => "\x1b[94m"
  | C64Color.light_grey => "\x1b[97m"

def ANSI_RESET : String := "\x1b[0m"

def ANSI_CLEAR_SCREEN : String := "\x1b[2J"

def ANSI_CURSOR_HOME : String := "\x1b[H"

/-- `clear_screen` (screen.py lines 57-72): ANSI clear + home for the web
transport, the single PETSCII byte 0x93 for telnet/C64. -/
def clear_screen (connection_type : ConnectionType) : String :=
  match connection_type with
  | ConnectionType.web => ANSI_CLEAR_SCREEN ++ ANSI_CURSOR_HOME
  | ConnectionType.telnet => "\x93"

/-- `set_color` (screen.py lines 75-87): both transports emit the ANSI
code (the source falls back to ANSI for telnet as well). -/
def set_color (connection_type : ConnectionType) (color : C64Color) : String :=
  match connection_type with
  | ConnectionType.web => ANSI_COLORS color
  | ConnectionType.telnet => ANSI_COLORS color

/-- `reset_color` (screen.py lines 90-99): ANSI reset for both transports. -/
def reset_color (connection_type : ConnectionType) : String :=
  match connection_type with
  | ConnectionType.web => ANSI_RESET
  | ConnectionType.telnet => ANSI_RESET

/-- `center_text` (screen.py lines 138-144). -/
def center_text (text : String) (width : Nat) : String :=
  if width ≤ text.data.length then String.mk (text.data.take width)
  else strRepeat " " ((width - text.data.length) / 2) ++ text

/-- `create_header` (screen.py lines 170-174).  The border character is a
(one-character) string in the source. -/
def create_header (text : String) (width : Nat) (ch : String) : String :=
  strRepeat ch width ++ "\n" ++ center_text text width ++ "\n" ++ strRepeat ch width

/-- `create_status_bar` (screen.py lines 201-217).  The source also takes
a `connection_type` that it never reads.  In Python the truncation index
`width - len(right) - 1` can be negative, in which case the `> 0` guard
replaces the left text with `""`; natural subtraction reaches the same
branch. -/
def create_status_bar (left_text right_text : String) (width : Nat) : String :=
  let total_used := left_text.data.length + right_text.data.length
  if width ≤ total_used then
    let available := width - right_text.data.length - 1
    let left2 := if 0 < available then String.mk (left_text.data.take available) else ""
    left2 ++ " " ++ right_text
  else
    left_text ++ strRepeat " " (width - total_used) ++ right_text

/-! PETSCII graphic constants (petscii.py lines 363-384). -/

def PETSCII_BLOCK : String := "█"

def PETSCII_HLINE : String := "─"

def PETSCII_VLINE : String := "│"

def PETSCII_TL_CORNER : String := "┌"

def PETSCII_TR_CORNER : String := "┐"

def PETSCII_BL_CORNER : String := "└"

def PETSCII_BR_CORNER : String := "┘"

/-! ### Sessions (core.py lines 21-57) -/

/-- `BBSSession` (core.py lines 21-42).  The identifier, remote address,
timestamps, user id, queues and input buffer play no role in the
engine logic modelled here and are omitted; `update_activity` only
touches the omitted timestamp. -/
structure BBSSession where
  connection_type : ConnectionType
  username : Option String
  is_authenticated : Bool
  current_menu : Option String
  waiting_for_continue : Bool
  is_active : Bool
  pagination_lines : Option (List String)
  pagination_current_page : Nat
  pagination_lines_per_page : Nat
deriving Repr

/-! ### Pagination helpers (core.py lines 60-88) -/

/-- The accumulation loop inside `paginate_text` (core.py lines 63-73):
append each line to the current page, flush when it reaches
`lines_per_page` lines, flush a non-empty trailing page. -/
def paginateLoop (lines_per_page : Nat) : List String → List String → List String
  | [], current_page =>
      if current_page = [] then [] else [pyJoinLines current_page]
  | line :: rest, current_page =>
      let current_page := current_page ++ [line]
      if lines_per_page ≤ current_page.length then
        pyJoinLines current_page :: paginateLoop lines_per_page rest []
      else
        paginateLoop lines_per_page rest current_page

/-- `paginate_text` (core.py lines 60-75). -/
def paginate_text (text : String) (lines_per_page : Nat) : List String :=
  let lines := pySplitLines text
  let pages := paginateLoop lines_per_page lines []
  if pages = [] then [""] else pages

/-- `format_pagination_page` (core.py lines 78-88).  The
`connection_type` parameter is unread in the source.  Python's
`current_page < total_pages - 1` on ints agrees with the natural-number
comparison here for every reachable call (`total_pages = 0` makes both
sides false). -/
def format_pagination_page (content : String) (current_page total_pages : Nat)
    (_connection_type : ConnectionType) : String :=
  pyJoinLines ([content, "", "Page " ++ toString (current_page + 1) ++ " of " ++ toString total_pages]
    ++ [if current_page < total_pages - 1 then
          "Press RETURN for next page, Q to quit"
        else
          "Press RETURN to continue"])

/-! ### Menus (core.py lines 91-459) -/

/-- A menu command handler: the source's async bound methods
`(session, cmd) -> response` that may mutate the session. -/
def MenuHandler : Type := BBSSession → String → BBSSession × String

/-- `BBSMenu` (core.py lines 91-104): name, title, command table, and the
(overridden) `display` method.  The base-class `display` body is the
function `BBSMenu_base_display` below; both registered menus override it. -/
structure BBSMenu where
  name : String
  title : String
  commands : List (String × MenuHandler)
  display : BBSSession → String

/-- The base-class `BBSMenu.display` (core.py lines 99-104); unused by the
two registered menus but kept for fidelity. -/
def BBSMenu_base_display (title : String) (session : BBSSession) : String :=
  clear_screen session.connection_type ++ title ++ "\n" ++ strRepeat "=" 40 ++ "\n\n"

/-- The alias table inside `BBSMenu.handle_input` (core.py lines 143-153). -/
def aliases : List (String × String) :=
  [("QUIT", "Q"), ("EXIT", "Q"), ("HELP", "?"), ("H", "?"),
   ("LOGIN", "L"), ("REGISTER", "R"), ("GUEST", "G"),
   ("CHARSET", "C"), ("CHAR", "C")]

/-- The invalid-command message built at the end of `BBSMenu.handle_input`
(core.py lines 158-173). -/
def invalid_command_message (ct : ConnectionType) (input_text : String) : String :=
  set_color ct C64Color.red ++ "\nInvalid command: " ++ reset_color ct
    ++ set_color ct C64Color.yellow ++ "\x27" ++ input_text ++ "\x27\n" ++ reset_color ct
    ++ set_color ct C64Color.white ++ "Type " ++ set_color ct C64Color.yellow ++ "?"
    ++ reset_color ct ++ set_color ct C64Color.white
    ++ " for help or try a command from the menu above.\n" ++ reset_color ct

/-- Command dispatch at the end of `BBSMenu.handle_input` (core.py lines
138-173): exact match against the command table, then the alias table
(whose target must itself be in the table), else the invalid-command
message. -/
def BBSMenu.dispatch (self : BBSMenu) (session : BBSSession) (input_text : String) :
    BBSSession × String :=
  match List.lookup input_text self.commands with
  | some handler => handler session input_text
  | none =>
    match List.lookup input_text aliases with
    | some canonical =>
      match List.lookup canonical self.commands with
      | some handler => handler session canonical
      | none => (session, invalid_command_message session.connection_type input_text)
    | none => (session, invalid_command_message session.connection_type input_text)

/-- `BBSMenu.handle_input` (core.py lines 106-173): strip and uppercase
the input, handle an active pagination cursor (blank advances, `Q`
aborts, anything else clears the cursor and falls through), then
dispatch.  `session.pagination_lines[...]` is in range whenever read; it
is modelled with `getD`. -/
def BBSMenu.handle_input (self : BBSMenu) (session : BBSSession) (raw : String) :
    BBSSession × String :=
  let input_text := pyUpper (pyStrip raw)
  match session.pagination_lines with
  | some plines =>
    if input_text = "" ∨ input_text = "\r" then
      let session := { session with pagination_current_page := session.pagination_current_page + 1 }
      if plines.length ≤ session.pagination_current_page then
        let session := { session with pagination_lines := none, pagination_current_page := 0,
                                      waiting_for_continue := false }
        (session, self.display session)
      else
        let total_pages := plines.length
        let page_content := plines.getD session.pagination_current_page ""
        (session, format_pagination_page page_content session.pagination_current_page
                    total_pages session.connection_type)
    else if input_text = "Q" then
      let session := { session with pagination_lines := none, pagination_current_page := 0,
                                    waiting_for_continue := false }
      (session, self.display session)
    else
      let session := { session with pagination_lines := none, pagination_current_page := 0 }
      self.dispatch session input_text
  | none => self.dispatch session input_text

/-! ### Front page menu (core.py lines 176-324) -/

namespace FrontPageMenu

/-- `FrontPageMenu.display` (core.py lines 188-280). -/
def display (session : BBSSession) : String :=
  let ct := session.connection_type
  let box_width : Nat := 38
  let hline := strRepeat PETSCII_HLINE (box_width - 2)
  let top_line := PETSCII_TL_CORNER ++ hline ++ PETSCII_TR_CORNER
  let bottom_line := PETSCII_BL_CORNER ++ hline ++ PETSCII_BR_CORNER
  let side_line := PETSCII_VLINE ++ strRepeat " " (box_width - 2) ++ PETSCII_VLINE
  let banner_lines : List String := [
    "",
    center_text top_line 40,
    center_text side_line 40,
    center_text (PETSCII_VLINE ++ strRepeat " " 4
      ++ strRepeat PETSCII_BLOCK 6 ++ " " ++ strRepeat PETSCII_BLOCK 6 ++ " "
      ++ strRepeat PETSCII_BLOCK 6 ++ " " ++ strRepeat PETSCII_BLOCK 6
      ++ strRepeat " " 5 ++ PETSCII_VLINE) 40,
    center_text (PETSCII_VLINE ++ strRepeat " " 4
      ++ PETSCII_BLOCK ++ strRepeat " " 4 ++ PETSCII_BLOCK ++ " "
      ++ PETSCII_BLOCK ++ strRepeat " " 4 ++ PETSCII_BLOCK ++ " "
      ++ PETSCII_BLOCK ++ strRepeat " " 4 ++ PETSCII_BLOCK ++ " "
      ++ PETSCII_BLOCK ++ strRepeat " " 4 ++ PETSCII_BLOCK
      ++ strRepeat " " 5 ++ PETSCII_VLINE) 40,
    center_text (PETSCII_VLINE ++ strRepeat " " 4
      ++ strRepeat PETSCII_BLOCK 6 ++ " " ++ strRepeat PETSCII_BLOCK 6 ++ " "
      ++ strRepeat PETSCII_BLOCK 6 ++ " " ++ strRepeat PETSCII_BLOCK 6
      ++ strRepeat " " 5 ++ PETSCII_VLINE) 40,
    center_text side_line 40,
    center_text (PETSCII_VLINE ++ strRepeat " " 4 ++ "STATION-64 :: NODE ONLINE"
      ++ strRepeat " " 7 ++ PETSCII_VLINE) 40,
    center_text side_line 40,
    center_text bottom_line 40,
    ""]
  clear_screen ct ++ set_color ct C64Color.cyan
    ++ pyJoinLines banner_lines ++ reset_color ct
    ++ set_color ct C64Color.green
    ++ center_text "Welcome to Station-64!" 40 ++ "\n"
    ++ center_text "Modern BBS for Commodore 64" 40 ++ "\n\n"
    ++ reset_color ct
    ++ set_color ct C64Color.yellow
    ++ create_header "MAIN MENU" 40 "=" ++ "\n\n"
    ++ reset_color ct
    ++ set_color ct C64Color.white ++ "  "
    ++ set_color ct C64Color.green ++ "L" ++ reset_color ct
    ++ set_color ct C64Color.white ++ " - Login to your account\n"
    ++ "  " ++ set_color ct C64Color.green ++ "R" ++ reset_color ct
    ++ set_color ct C64Color.white ++ " - Register new account\n"
    ++ "  " ++ set_color ct C64Color.green ++ "G" ++ reset_color ct
    ++ set_color ct C64Color.white ++ " - Enter as guest\n"
    ++ "  " ++ set_color ct C64Color.yellow ++ "?" ++ reset_color ct
    ++ set_color ct C64Color.white ++ " - Help (always available)\n"
    ++ "\n" ++ reset_color ct
    ++ set_color ct C64Color.cyan ++ "Enter command" ++ reset_color ct
    ++ set_color ct C64Color.grey ++ " (or ? for help)" ++ reset_color ct
    ++ set_color ct C64Color.cyan ++ ": " ++ reset_color ct

/-- `FrontPageMenu.login` (core.py lines 282-291). -/
def login (session : BBSSession) (_cmd : String) : BBSSession × String :=
  let session := { session with waiting_for_continue := true }
  let ct := session.connection_type
  (session,
    set_color ct C64Color.yellow ++ "\n" ++ create_header "LOGIN" 40 "=" ++ "\n\n"
      ++ reset_color ct
      ++ "Login functionality coming soon!\n"
      ++ "For now, enter as guest (G) to explore.\n\n"
      ++ "Press RETURN to continue...")

/-- `FrontPageMenu.register` (core.py lines 293-302). -/
def register (session : BBSSession) (_cmd : String) : BBSSession × String :=
  let session := { session with waiting_for_continue := true }
  let ct := session.connection_type
  (session,
    set_color ct C64Color.yellow ++ "\n" ++ create_header "REGISTRATION" 40 "=" ++ "\n\n"
      ++ reset_color ct
      ++ "Registration functionality coming soon!\n"
      ++ "For now, enter as guest (G) to explore.\n\n"
      ++ "Press RETURN to continue...")

/-- `FrontPageMenu.guest` (core.py lines 304-309): empty output, moves to
the main menu. -/
def guest (session : BBSSession) (_cmd : String) : BBSSession × String :=
  let session := { session with is_authenticated := false,
                                username := some "GUEST",
                                current_menu := some "main" }
  (session, "")

/-- `FrontPageMenu.show_help` (core.py lines 311-324): sets the
waiting-for-continue flag. -/
def show_help (session : BBSSession) (_cmd : String) : BBSSession × String :=
  let session := { session with waiting_for_continue := true }
  let ct := session.connection_type
  (session,
    set_color ct C64Color.cyan ++ "\n" ++ create_header "HELP" 40 "=" ++ "\n\n"
      ++ reset_color ct
      ++ "Station-64 BBS Help\n\n"
      ++ "Commands:\n"
      ++ "  L - Login to your account\n"
      ++ "  R - Register a new account\n"
      ++ "  G - Enter as guest (no login required)\n"
      ++ "  ? - Show this help\n\n"
      ++ "Press RETURN to continue...")

end FrontPageMenu

/-- The `FrontPageMenu` instance (core.py lines 179-186). -/
def frontpage_menu : BBSMenu :=
  { name := "frontpage",
    title := "STATION-64 BBS",
    commands := [("L", FrontPageMenu.login), ("R", FrontPageMenu.register),
                 ("G", FrontPageMenu.guest), ("?", FrontPageMenu.show_help)],
    display := FrontPageMenu.display }

/-! ### Charset display helper (petscii.py lines 338-360) -/

/-- Uppercase hexadecimal digit. -/
def hexDigitU (n : Nat) : Char :=
  if n < 10 then Char.ofNat (48 + n) else Char.ofNat (55 + n)

/-- Python two-digit uppercase hexadecimal formatting (format spec 02X)
of a number below 256. -/
def toHex2 (n : Nat) : String :=
  String.mk [hexDigitU (n / 16 % 16), hexDigitU (n % 16)]

/-- One row of `generate_petscii_charset_simple` (petscii.py lines
346-356): the 16 characters starting at `row_start`, with non-printable
entries replaced by a dot. -/
def charsetSimpleRow (row_start : Nat) : List Char :=
  (List.range 16).map (fun i =>
    let byte_val := row_start + i
    let char := petscii_to_unicode byte_val
    if (32 ≤ char.toNat ∧ char.toNat < 127) ∨ (char = '█' ∨ char = '▌' ∨ char = '▄' ∨ char = '▀')
    then char else '.')

/-- `generate_petscii_charset_simple` (petscii.py lines 338-360). -/
def generate_petscii_charset_simple : String :=
  let header : List String := ["PETSCII CHARACTER SET", strRepeat "=" 40, ""]
  let rowStarts := (List.range 14).map (fun k => 32 + 16 * k)
  let rows := rowStarts.filterMap (fun row_start =>
    let row := charsetSimpleRow row_start
    if row.any (fun c => c ≠ '.') then
      some ("0x" ++ toHex2 row_start ++ ": "
        ++ String.mk (joinSep [' '] (row.map (fun c => [c]))))
    else none)
  pyJoinLines (header ++ rows)

/-! ### Main menu (core.py lines 327-458) -/

namespace MainMenu

/-- `MainMenu.display` (core.py lines 338-425).  `session.username or
"GUEST"` treats both `None` and the empty string as missing. -/
def display (session : BBSSession) : String :=
  let ct := session.connection_type
  let box_width : Nat := 38
  let hline := strRepeat PETSCII_HLINE (box_width - 2)
  let top_line := PETSCII_TL_CORNER ++ hline ++ PETSCII_TR_CORNER
  let bottom_line := PETSCII_BL_CORNER ++ hline ++ PETSCII_BR_CORNER
  let title_line := PETSCII_VLINE ++ strRepeat " " 6 ++ "STATION-64 BBS MAIN MENU"
    ++ strRepeat " " 7 ++ PETSCII_VLINE
  let header_box : List String := [
    "",
    center_text top_line 40,
    center_text title_line 40,
    center_text bottom_line 40,
    ""]
  let username :=
    match session.username with
    | none => "GUEST"
    | some u => if u = "" then "GUEST" else u
  let status_text := create_status_bar ("User: " ++ username) "Type ? for help" 40
  clear_screen ct ++ set_color ct C64Color.green
    ++ pyJoinLines header_box ++ reset_color ct
    ++ set_color ct C64Color.grey ++ status_text ++ "\n" ++ reset_color ct ++ "\n"
    ++ set_color ct C64Color.cyan ++ "Welcome, " ++ username ++ "!\n\n" ++ reset_color ct
    ++ set_color ct C64Color.yellow
    ++ create_header "AVAILABLE COMMANDS" 40 "-" ++ "\n\n"
    ++ reset_color ct
    ++ set_color ct C64Color.white ++ "  "
    ++ set_color ct C64Color.cyan ++ "C" ++ reset_color ct
    ++ set_color ct C64Color.white ++ " - View PETSCII Character Set\n"
    ++ "  " ++ set_color ct C64Color.yellow ++ "?" ++ reset_color ct
    ++ set_color ct C64Color.white ++ " - Show Help\n"
    ++ "  " ++ set_color ct C64Color.red ++ "Q" ++ reset_color ct
    ++ set_color ct C64Color.white ++ " - Quit and disconnect\n"
    ++ "\n" ++ reset_color ct
    ++ set_color ct C64Color.green ++ "Enter command" ++ reset_color ct
    ++ set_color ct C64Color.grey ++ " (or ? for help)" ++ reset_color ct
    ++ set_color ct C64Color.green ++ ": " ++ reset_color ct

/-- `MainMenu.show_charset` (core.py lines 427-436): sets the
waiting-for-continue flag, shows the charset. -/
def show_charset (session : BBSSession) (_cmd : String) : BBSSession × String :=
  let session := { session with waiting_for_continue := true }
  (session,
    pyJoinLines ["", generate_petscii_charset_simple, "",
                 "Press RETURN to return to main menu...", ""])

/-- `MainMenu.show_help` (core.py lines 438-454): sets the
waiting-for-continue flag. -/
def show_help (session : BBSSession) (_cmd : String) : BBSSession × String :=
  let session := { session with waiting_for_continue := true }
  (session,
    pyJoinLines ["\n", "STATION-64 BBS HELP", strRepeat "=" 40, "",
                 "This is a modern BBS for the Commodore 64.", "",
                 "Available commands:",
                 "  C - View complete PETSCII character set",
                 "  ? - Show this help message",
                 "  Q - Quit and disconnect", "",
                 "Press RETURN to continue..."])

/-- `MainMenu.quit` (core.py lines 456-458): the goodbye text whose
`"Goodbye"` substring the engine sniffs for. -/
def quit (session : BBSSession) (_cmd : String) : BBSSession × String :=
  (session, "\n\nThank you for calling Station-64!\n\nGoodbye!\n")

end MainMenu

/-- The `MainMenu` instance (core.py lines 330-336). -/
def main_menu : BBSMenu :=
  { name := "main",
    title := "STATION-64 BBS",
    commands := [("C", MainMenu.show_charset), ("?", MainMenu.show_help),
                 ("Q", MainMenu.quit)],
    display := MainMenu.display }

/-! ### Engine (core.py lines 461-541) -/

/-- `BBSCore` (core.py lines 461-474): the menu registry.  The session
registry plays no role in the claims and is omitted. -/
structure BBSCore where
  menus : List (String × BBSMenu)

/-- The default engine `bbs_core` with its two registered menus (core.py
lines 469-474, 541). -/
def bbs_core : BBSCore :=
  { menus := [("frontpage", frontpage_menu), ("main", main_menu)] }

/-- The current-menu fallback shared by `process_input` and `get_screen`
(core.py lines 513-514 and 529-530): `if not session.current_menu or
session.current_menu not in self.menus`, where Python treats both `None`
and the empty string as falsy. -/
def BBSCore.menu_fallback (self : BBSCore) (session : BBSSession) : BBSSession :=
  match session.current_menu with
  | none => { session with current_menu := some "frontpage" }
  | some m =>
      if m = "" ∨ (List.lookup m self.menus).isNone then
        { session with current_menu := some "frontpage" }
      else session

/-- `BBSCore.get_screen` (core.py lines 527-533).  The registry lookup
after the fallback cannot fail for `bbs_core` (the source would raise);
the impossible branch returns the empty screen. -/
def BBSCore.get_screen (self : BBSCore) (session : BBSSession) : BBSSession × String :=
  let session := self.menu_fallback session
  match List.lookup (session.current_menu.getD "") self.menus with
  | some menu => (session, menu.display session)
  | none => (session, "")

/-- The part of `BBSCore.process_input` after the waiting-for-continue
block (core.py lines 513-525): menu fallback, dispatch to
`handle_input`, the `"Goodbye" in response` liveness sniff, and
`should_show_menu = not session.waiting_for_continue`. -/
def BBSCore.process_input_rest (self : BBSCore) (session : BBSSession) (input_text : String) :
    BBSSession × String × Bool :=
  let session := self.menu_fallback session
  match List.lookup (session.current_menu.getD "") self.menus with
  | none => (session, "", true)
  | some menu =>
    let (session, response) := menu.handle_input session input_text
    let session :=
      if strContainsSub response "Goodbye" then { session with is_active := false }
      else session
    (session, response, !session.waiting_for_continue)

/-- `BBSCore.process_input` (core.py lines 493-525): returns
`(new session, response, should_show_menu_after)`.  The unconditional
`update_activity()` touches only the omitted timestamp. -/
def BBSCore.process_input (self : BBSCore) (session : BBSSession) (input_text : String) :
    BBSSession × String × Bool :=
  if session.waiting_for_continue then
    if input_text = "" ∨ pyStrip input_text = "" then
      let session := { session with waiting_for_continue := false }
      let (session, screen) := self.get_screen session
      (session, screen, false)
    else
      self.process_input_rest { session with waiting_for_continue := false } input_text
  else
    self.process_input_rest session input_text

/-! ### Legacy byte framer (src/bbs/server.py lines 37-98) -/

/-- The inner sub-negotiation skip loop of `TelnetServer.handle_client`
(server.py lines 61-66): advance until an IAC byte immediately followed
by SE (0xF0), consume both and stop; if the pattern never occurs the
whole remainder is consumed. -/
def skipSB : List Nat → List Nat
  | [] => []
  | a :: rest =>
    match rest with
    | b :: rest2 => if a = 0xFF ∧ b = 0xF0 then rest2 else skipSB rest
    | [] => []

theorem skipSB_length_le : ∀ l : List Nat, (skipSB l).length ≤ l.length := by
  intro l
  induction l with
  | nil => simp [skipSB]
  | cons a rest ih =>
    cases rest with
    | nil => simp [skipSB]
    | cons b rest2 =>
      simp only [skipSB]
      split
      · simp only [List.length_cons]
        omega
      · exact Nat.le_trans ih (Nat.le_succ _)

/-- The IAC filter of `TelnetServer.handle_client` (server.py lines
51-70): drop each IAC byte together with its command byte; when the
command byte is SB (0xFA) also drop everything up to IAC SE via
`skipSB`. -/
def filter_iac : List Nat → List Nat
  | [] => []
  | b :: rest =>
    if b = 0xFF then
      match rest with
      | [] => []
      | cmd :: rest2 =>
        if cmd = 0xFA then filter_iac (skipSB rest2)
        else filter_iac rest2
    else b :: filter_iac rest
termination_by l => l.length
decreasing_by
  · have hsb := skipSB_length_le rest
    simp only [List.length_cons]
    omega
  · simp only [List.length_cons]
    omega
  · simp only [List.length_cons]
    omega

/-- Index of the first occurrence of a byte (Python `bytes.find` for a
present byte). -/
def idxOfByte (t : Nat) : List Nat → Nat
  | [] => 0
  | a :: rest => if a = t then 0 else idxOfByte t rest + 1

theorem idxOfByte_lt_length {t : Nat} {l : List Nat} (h : t ∈ l) :
    idxOfByte t l < l.length := by
  induction l with
  | nil => cases h
  | cons a rest ih =>
    by_cases ha : a = t
    · simp [idxOfByte, ha]
    · have : t ∈ rest := by
        cases h with
        | head => exact absurd rfl ha
        | tail _ h2 => exact h2
      simp only [idxOfByte, ha, if_false, List.length_cons]
      exact Nat.succ_lt_succ (ih this)

/-- The line-extraction loop of `TelnetServer.handle_client` (server.py
lines 73-87): while the buffer holds a CR or LF, split at the first CR if
any CR is present, otherwise at the first LF, and decode-and-strip the
extracted bytes exactly as `line_text = decode_petscii(line_bytes).strip()`
does.  Returns the extracted line texts and the remaining buffer. -/
def extract_lines (input_buffer : List Nat) : List String × List Nat :=
  if h : 0x0D ∈ input_buffer ∨ 0x0A ∈ input_buffer then
    let line_end :=
      if 0x0D ∈ input_buffer then idxOfByte 0x0D input_buffer
      else idxOfByte 0x0A input_buffer
    let line_bytes := input_buffer.take line_end
    let rest := input_buffer.drop (line_end + 1)
    let (more, remaining) := extract_lines rest
    (pyStrip (String.mk (decode_petscii line_bytes)) :: more, remaining)
  else
    ([], input_buffer)
termination_by input_buffer.length
decreasing_by
  have hlt : (if 0x0D ∈ input_buffer then idxOfByte 0x0D input_buffer
      else idxOfByte 0x0A input_buffer) < input_buffer.length := by
    by_cases hcr : 0x0D ∈ input_buffer
    · simpa [hcr] using idxOfByte_lt_length hcr
    · have hlf : 0x0A ∈ input_buffer := by
        cases h with
        | inl h1 => exact absurd h1 hcr
        | inr h2 => exact h2
      simpa [hcr] using idxOfByte_lt_length hlf
  simp only [List.length_drop]
  omega

/-- One iteration of the read loop of `TelnetServer.handle_client`
(server.py lines 42-87): append the freshly read chunk to the carried
buffer, run the IAC filter over the whole accumulated buffer, then
extract complete lines.  The carried buffer is the only state preserved
between reads — the filter itself restarts from scratch on each chunk. -/
def telnet_read_step (carried : List Nat) (data : List Nat) : List String × List Nat :=
  extract_lines (filter_iac (carried ++ data))

/-! ### Codec lemmas -/

/-- Whether table key `k` maps to the character `c`. -/
def tabHit (c : Char) (k : Nat) : Bool :=
  match PETSCII_TO_UNICODE k with
  | some v => v = c
  | none => false

theorem UNICODE_TO_PETSCII_eq_fold (c : Char) :
    UNICODE_TO_PETSCII c =
      (List.range 256).foldl (fun acc k => if tabHit c k then some k else acc) none := by
  unfold UNICODE_TO_PETSCII
  apply List.foldl_ext
  intro acc k _
  cases h : PETSCII_TO_UNICODE k with
  | none => simp [tabHit, h]
  | some v => by_cases hv : v = c <;> simp [tabHit, h, hv]

/-- A left fold that keeps the last index satisfying `p` returns the
unique such index. -/
theorem foldl_last_hit (p : Nat → Bool) :
    ∀ (n b : Nat), b < n → p b = true → (∀ j, j < n → p j = true → j = b) →
      (List.range n).foldl (fun acc k => if p k then some k else acc) none = some b := by
  intro n
  induction n with
  | zero => intro b hb; omega
  | succ n ih =>
    intro b hb hpb huniq
    rw [List.range_succ, List.foldl_append]
    simp only [List.foldl_cons, List.foldl_nil]
    by_cases hbn : b = n
    · subst hbn
      simp [hpb]
    · have hb' : b < n := by omega
      have hpn : p n = false := by
        by_contra hc
        have : p n = true := by
          cases hn : p n with
          | true => rfl
          | false => exact absurd hn hc
        exact hbn ((huniq n (by omega) this).symm ▸ rfl)
      rw [hpn]
      simp only [Bool.false_eq_true, if_false]
      exact ih b hb' hpb (fun j hj hpj => huniq j (by omega) hpj)

theorem PETSCII_TO_UNICODE_of_lt {b : Nat} (hb : b < 256) :
    PETSCII_TO_UNICODE b = some (petscii_to_unicode b) := by
  have h256 : ¬ 256 ≤ b := by omega
  unfold petscii_to_unicode PETSCII_TO_UNICODE
  simp [h256]

/-- C1 (counterexample): the byte 0x20 lies below the graphic range
0xA0-0xFF (and so outside every aliased graphic range), yet
`encode_petscii (decode_petscii [0x20]) = [0x9F] ≠ [0x20]`: the control
placeholders 0x01-0x1F and 0x80-0x9F alias the space glyph, and the
reverse map keeps the last writer 0x9F. -/
theorem petscii_roundtrip_fails_at_space :
    encode_petscii (decode_petscii [0x20]) = [0x9F] ∧ (0x20 : Nat) < 0xA0 ∧
      ([0x9F] : List Nat) ≠ [0x20] := by
  refine ⟨by decide, by decide, by decide⟩

/-- C1 (amended): for every byte whose decoded glyph has a unique
preimage in the 256-entry table — i.e. every byte outside all
many-to-one alias classes, which besides the graphic block runs also
cover the control placeholders, the space 0x20 and the ESC/bracket pair —
encoding the decode of that single byte returns the byte itself. -/
theorem petscii_roundtrip_of_unique_glyph (b : Nat) (hb : b < 256)
    (huniq : ∀ j, j < 256 → j ≠ b → petscii_to_unicode j ≠ petscii_to_unicode b) :
    encode_petscii (decode_petscii [b]) = [b] := by
  simp only [decode_petscii, encode_petscii, List.map_cons, List.map_nil, List.cons.injEq,
    and_true]
  have hlk : UNICODE_TO_PETSCII (petscii_to_unicode b) = some b := by
    rw [UNICODE_TO_PETSCII_eq_fold]
    apply foldl_last_hit (tabHit (petscii_to_unicode b)) 256 b hb
    · unfold tabHit
      rw [PETSCII_TO_UNICODE_of_lt hb]
      simp
    · intro j hj hpj
      by_contra hne
      have htj : PETSCII_TO_UNICODE j = some (petscii_to_unicode j) :=
        PETSCII_TO_UNICODE_of_lt hj
      unfold tabHit at hpj
      rw [htj] at hpj
      simp only [decide_eq_true_eq] at hpj
      exact huniq j hj hne hpj
  unfold unicode_to_petscii
  rw [hlk]

/-- C1 (witness): the byte 0x41 (letter A) has a unique glyph and
round-trips. -/
theorem petscii_roundtrip_of_unique_glyph_witness :
    encode_petscii (decode_petscii [0x41]) = [0x41] :=
  petscii_roundtrip_of_unique_glyph 0x41 (by decide)
    (by decide)

/-- C6 (counterexample): decoding the reserved clear-screen byte 0x93
yields the space placeholder, not the Renderer's legacy clear-screen
string `chr(0x93)`, so the decode direction of the claimed round-trip
fails. -/
theorem clear_byte_decode_not_clear_string :
    String.mk (decode_petscii [0x93]) = " " ∧
      (" " : String) ≠ clear_screen ConnectionType.telnet := by
  refine ⟨by decide, by decide⟩

/-- C6 (amended): only the encode direction round-trips: encoding the
Renderer's legacy clear-screen output yields exactly the byte 0x93 (via
the raw-code-point fallback of the encoder), while decoding 0x93 yields
a space like every other 0x80-0x9F control placeholder. -/
theorem clear_screen_encode_roundtrip :
    encode_petscii (clear_screen ConnectionType.telnet).data = [0x93] ∧
      String.mk (decode_petscii [0x93]) = " " := by
  refine ⟨by decide, by decide⟩

/-! ### Framer lemmas -/

theorem skipSB_append_terminator (payload : List Nat) (rest : List Nat)
    (hp : ∀ x ∈ payload, x ≠ 0xFF) :
    skipSB (payload ++ 0xFF :: 0xF0 :: rest) = rest := by
  induction payload with
  | nil => simp [skipSB]
  | cons p ps ih =>
    have hpff : p ≠ 0xFF := hp p (List.mem_cons_self p ps)
    have ih2 := ih (fun x hx => hp x (List.mem_cons_of_mem p hx))
    cases ps with
    | nil => simpa [skipSB, hpff] using ih2
    | cons q qs => simpa [skipSB, hpff] using ih2

theorem filter_iac_no_ff (l : List Nat) (h : ∀ x ∈ l, x ≠ 0xFF) :
    filter_iac l = l := by
  induction l with
  | nil => simp [filter_iac]
  | cons b rest ih =>
    have hb : b ≠ 0xFF := h b (List.mem_cons_self b rest)
    rw [filter_iac.eq_def]
    simp [hb, ih (fun x hx => h x (List.mem_cons_of_mem b hx))]

theorem filter_iac_cons_sb (X : List Nat) :
    filter_iac (0xFF :: 0xFA :: X) = filter_iac (skipSB X) := by
  rw [filter_iac]
  simp

theorem extract_lines_nil : extract_lines [] = ([], []) := by
  rw [extract_lines]
  simp

theorem idxOfByte_append_not_mem (t : Nat) (l1 l2 : List Nat)
    (h : ∀ x ∈ l1, x ≠ t) :
    idxOfByte t (l1 ++ l2) = l1.length + idxOfByte t l2 := by
  induction l1 with
  | nil => simp [idxOfByte]
  | cons a rest ih =>
    have ha : a ≠ t := h a (List.mem_cons_self a rest)
    have ih2 := ih (fun x hx => h x (List.mem_cons_of_mem a hx))
    simp only [List.cons_append, idxOfByte, ha, if_false, List.length_cons,
      List.append_eq] at ih2 ⊢
    omega

theorem extract_lines_single (line : List Nat)
    (hl : ∀ x ∈ line, x ≠ 0x0D ∧ x ≠ 0x0A) :
    extract_lines (line ++ [0x0D]) = ([pyStrip (String.mk (decode_petscii line))], []) := by
  have hmem : (0x0D : Nat) ∈ line ++ [0x0D] := List.mem_append_right line (by simp)
  have hidx : idxOfByte 0x0D (line ++ [0x0D]) = line.length := by
    rw [idxOfByte_append_not_mem 0x0D line [0x0D] (fun x hx => (hl x hx).1)]
    simp [idxOfByte]
  rw [extract_lines, dif_pos (Or.inl hmem)]
  simp only [if_pos hmem, hidx]
  rw [List.take_left, show line.length + 1 = (line ++ [0x0D]).length by simp,
    List.drop_length, extract_lines_nil]

/-- C3 (counterexample): the filter is not resumable mid-sequence.  A
sub-negotiation split across two read chunks loses the mid-sequence
state: the first chunk (IAC, SB, one payload byte) is fully discarded and
leaves an empty carried buffer, so the second chunk's remaining payload
byte 0x42 is treated as data and leaks into the decoded command line,
which comes out as "BHI" instead of the clean "HI". -/
theorem iac_filter_not_resumable :
    (telnet_read_step [] [0xFF, 0xFA, 0x41]).2 = [] ∧
      telnet_read_step (telnet_read_step [] [0xFF, 0xFA, 0x41]).2
        [0x42, 0xFF, 0xF0, 0x48, 0x49, 0x0D] = (["BHI"], []) ∧
      strContainsSub "BHI" (String.mk (decode_petscii [0x42])) = true ∧
      ("BHI" : String) ≠ "HI" := by
  have e1 : telnet_read_step [] [0xFF, 0xFA, 0x41] = ([], []) := by
    unfold telnet_read_step
    rw [List.nil_append,
      show filter_iac [0xFF, 0xFA, 0x41] = [] by simp [filter_iac, skipSB],
      extract_lines_nil]
  refine ⟨by rw [e1], ?_, by decide, by decide⟩
  rw [e1]
  unfold telnet_read_step
  rw [List.nil_append,
    show filter_iac [0x42, 0xFF, 0xF0, 0x48, 0x49, 0x0D] = [0x42, 0x48, 0x49, 0x0D] by
      simp [filter_iac]]
  rw [extract_lines]
  norm_num
  rw [extract_lines]
  decide

/-- C3 (amended): when the whole negotiation sequence arrives in a single
read chunk — introducer (0xFF), sub-negotiation command (0xFA), payload
free of the introducer byte, the introducer+end-marker terminator
(0xFF 0xF0), then a CR-terminated command line — the framer yields
exactly one decoded command line, equal to the decoded-and-stripped line
bytes (so free of every negotiation byte), and an empty carried buffer.
Across chunk boundaries the filter is not resumable (see the
counterexample). -/
theorem iac_filter_single_chunk (payload line : List Nat)
    (hp : ∀ x ∈ payload, x ≠ 0xFF)
    (hl : ∀ x ∈ line, x ≠ 0xFF ∧ x ≠ 0x0D ∧ x ≠ 0x0A) :
    telnet_read_step [] ([0xFF, 0xFA] ++ payload ++ [0xFF, 0xF0] ++ line ++ [0x0D])
      = ([pyStrip (String.mk (decode_petscii line))], []) := by
  unfold telnet_read_step
  rw [List.nil_append]
  have hshape : [0xFF, 0xFA] ++ payload ++ [0xFF, 0xF0] ++ line ++ [0x0D]
      = 0xFF :: 0xFA :: (payload ++ 0xFF :: 0xF0 :: (line ++ [0x0D])) := by
    simp
  rw [hshape, filter_iac_cons_sb,
    skipSB_append_terminator payload (line ++ [0x0D]) hp,
    filter_iac_no_ff (line ++ [0x0D]) ?notff,
    extract_lines_single line (fun x hx => ⟨(hl x hx).2.1, (hl x hx).2.2⟩)]
  intro x hx
  rcases List.mem_append.mp hx with h1 | h2
  · exact (hl x h1).1
  · simp at h2
    omega

/-- C3 (witness): a concrete single-chunk stream with payload `[0x01]`
and command line "HI". -/
theorem iac_filter_single_chunk_witness :
    telnet_read_step [] ([0xFF, 0xFA] ++ [0x01] ++ [0xFF, 0xF0] ++ [0x48, 0x49] ++ [0x0D])
      = ([pyStrip (String.mk (decode_petscii [0x48, 0x49]))], []) :=
  iac_filter_single_chunk [0x01] [0x48, 0x49] (by decide) (by decide)

/-! ### Split/join lemmas for pagination -/

theorem splitChar_ne_nil (c : Char) (l : List Char) : splitChar c l ≠ [] := by
  cases l with
  | nil => simp [splitChar]
  | cons a rest =>
    simp only [splitChar]
    split
    · simp
    · cases h : splitChar c rest with
      | nil => simp
      | cons g gs => simp

theorem splitChar_not_mem (c : Char) (l : List Char) :
    ∀ p ∈ splitChar c l, c ∉ p := by
  induction l with
  | nil =>
    intro p hp
    simp [splitChar] at hp
    simp [hp]
  | cons a rest ih =>
    intro p hp
    simp only [splitChar] at hp
    by_cases hac : a = c
    · subst hac
      rw [if_pos rfl] at hp
      rcases List.mem_cons.mp hp with h1 | h2
      · subst h1; simp
      · exact ih p h2
    · simp only [hac, if_false] at hp
      cases h : splitChar c rest with
      | nil => exact absurd h (splitChar_ne_nil c rest)
      | cons g gs =>
        rw [h] at hp
        rcases List.mem_cons.mp hp with h1 | h2
        · subst h1
          intro hmem
          rcases List.mem_cons.mp hmem with h3 | h4
          · exact hac h3.symm
          · exact ih g (h ▸ List.mem_cons_self g gs) h4
        · exact ih p (h ▸ List.mem_cons_of_mem g h2)

theorem joinSep_splitChar (c : Char) (l : List Char) :
    joinSep [c] (splitChar c l) = l := by
  induction l with
  | nil => simp [splitChar, joinSep]
  | cons a rest ih =>
    simp only [splitChar]
    by_cases hac : a = c
    · subst hac
      simp only [if_pos rfl]
      cases h : splitChar a rest with
      | nil => exact absurd h (splitChar_ne_nil a rest)
      | cons g gs =>
        rw [h] at ih
        simp [joinSep, ih]
    · simp only [hac, if_false]
      cases h : splitChar c rest with
      | nil => exact absurd h (splitChar_ne_nil c rest)
      | cons g gs =>
        rw [h] at ih
        cases gs with
        | nil => simp only [joinSep] at ih ⊢; simp [ih]
        | cons g2 gs2 => simp only [joinSep] at ih ⊢; simp [ih]

theorem splitChar_no_sep (c : Char) (p : List Char) (h : c ∉ p) :
    splitChar c p = [p] := by
  induction p with
  | nil => simp [splitChar]
  | cons a rest ih =>
    have hac : a ≠ c := fun he => h (he ▸ List.mem_cons_self a rest)
    have h2 : c ∉ rest := fun hm => h (List.mem_cons_of_mem a hm)
    simp [splitChar, hac, ih h2]

theorem splitChar_append_sep (c : Char) (p rest : List Char) (h : c ∉ p) :
    splitChar c (p ++ c :: rest) = p :: splitChar c rest := by
  induction p with
  | nil => simp [splitChar]
  | cons a p2 ih =>
    have hac : a ≠ c := fun he => h (he ▸ List.mem_cons_self a p2)
    have h2 : c ∉ p2 := fun hm => h (List.mem_cons_of_mem a hm)
    have ih2 := ih h2
    simp only [List.cons_append, splitChar, hac, if_false, List.append_eq] at ih2 ⊢
    rw [ih2]

theorem splitChar_joinSep (c : Char) :
    ∀ parts : List (List Char), parts ≠ [] → (∀ p ∈ parts, c ∉ p) →
      splitChar c (joinSep [c] parts) = parts := by
  intro parts
  induction parts with
  | nil => intro h; exact absurd rfl h
  | cons p ps ih =>
    intro _ hmem
    cases ps with
    | nil =>
      simp only [joinSep]
      exact splitChar_no_sep c p (hmem p (List.mem_cons_self p []))
    | cons p2 ps2 =>
      simp only [joinSep]
      have hp : c ∉ p := hmem p (List.mem_cons_self p (p2 :: ps2))
      have hrest := ih (by simp) (fun q hq => hmem q (List.mem_cons_of_mem p hq))
      rw [show p ++ [c] ++ joinSep [c] (p2 :: ps2) = p ++ c :: joinSep [c] (p2 :: ps2) by simp,
        splitChar_append_sep c p _ hp, hrest]

/-- `String.mk` of a string's own characters is the string (structure
eta). -/
theorem strMk_data (s : String) : String.mk s.data = s := rfl

/-- Splitting the join of newline-free parts reproduces the parts, at the
`String` level. -/
theorem pySplit_pyJoin (parts : List String) (hne : parts ≠ [])
    (h : ∀ p ∈ parts, '\n' ∉ p.data) :
    pySplitLines (pyJoinLines parts) = parts := by
  unfold pySplitLines pyJoinLines
  rw [show (String.mk (joinSep ['\n'] (parts.map String.data))).data
      = joinSep ['\n'] (parts.map String.data) from rfl]
  rw [splitChar_joinSep '\n' (parts.map String.data)
    (by simpa using hne)
    (by intro q hq
        rcases List.mem_map.mp hq with ⟨s, hs, rfl⟩
        exact h s hs)]
  rw [show (parts.map String.data).map String.mk = parts.map (fun s => String.mk s.data) by
    rw [List.map_map]; rfl]
  simp [strMk_data]

/-! ### Pagination loop lemmas -/

theorem paginateLoop_flatten (n : Nat) :
    ∀ (lines cur : List String),
      (∀ p ∈ cur, '\n' ∉ p.data) → (∀ p ∈ lines, '\n' ∉ p.data) →
      ((paginateLoop n lines cur).map pySplitLines).flatten = cur ++ lines := by
  intro lines
  induction lines with
  | nil =>
    intro cur hcur _
    by_cases hc : cur = []
    · simp [paginateLoop, hc]
    · simp only [paginateLoop, hc, if_false, List.map_cons, List.map_nil, List.flatten]
      rw [pySplit_pyJoin cur hc hcur]
  | cons line rest ih =>
    intro cur hcur hlines
    have hline : '\n' ∉ line.data := hlines line (List.mem_cons_self line rest)
    have hrest : ∀ p ∈ rest, '\n' ∉ p.data :=
      fun p hp => hlines p (List.mem_cons_of_mem line hp)
    have hcur2 : ∀ p ∈ cur ++ [line], '\n' ∉ p.data := by
      intro p hp
      rcases List.mem_append.mp hp with h1 | h2
      · exact hcur p h1
      · simp at h2
        exact h2 ▸ hline
    simp only [paginateLoop]
    by_cases hfull : n ≤ (cur ++ [line]).length
    · rw [if_pos hfull]
      simp only [List.map_cons, List.flatten_cons]
      rw [pySplit_pyJoin (cur ++ [line]) (by simp) hcur2,
        ih [] (by simp) hrest]
      simp
    · rw [if_neg hfull, ih (cur ++ [line]) hcur2 hrest]
      simp

theorem paginateLoop_length (n : Nat) :
    ∀ (lines cur : List String), cur.length < n →
      (paginateLoop n lines cur).length = (cur.length + lines.length + n - 1) / n := by
  intro lines
  induction lines with
  | nil =>
    intro cur hcur
    by_cases hc : cur = []
    · subst hc
      have h0 : paginateLoop n [] ([] : List String) = [] := rfl
      have hdiv := Nat.div_eq_of_lt (show 0 + 0 + n - 1 < n by omega)
      rw [h0]
      simp only [List.length_nil]
      omega
    · simp only [paginateLoop, hc, if_false, List.length_cons, List.length_nil]
      have hk : 1 ≤ cur.length := by
        cases cur with
        | nil => exact absurd rfl hc
        | cons _ _ => simp
      have h1 : (cur.length + 0 + n - 1) / n = 1 :=
        Nat.div_eq_of_lt_le (by omega) (by omega)
      rw [h1]
  | cons line rest ih =>
    intro cur hcur
    simp only [paginateLoop]
    by_cases hfull : n ≤ (cur ++ [line]).length
    · have hn : cur.length + 1 = n := by
        simp only [List.length_append, List.length_cons, List.length_nil] at hfull
        omega
      rw [if_pos hfull]
      simp only [List.length_cons]
      rw [ih [] (by simp only [List.length_nil]; omega)]
      simp only [List.length_nil, List.length_cons, Nat.zero_add]
      have he : cur.length + (rest.length + 1) + n - 1 = rest.length + n - 1 + n := by omega
      rw [he, Nat.add_div_right _ (by omega : 0 < n)]
    · have hlt : (cur ++ [line]).length < n := by omega
      rw [if_neg hfull, ih (cur ++ [line]) hlt]
      congr 1
      simp only [List.length_append, List.length_cons, List.length_nil]
      omega

/-- C7: for every text and every `linesPerPage ≥ 1`, `paginate_text`
returns at least one page, the concatenation of all pages' line lists in
order is exactly the text's line list, the page count is
`ceil(lineCount / n)`, and empty text yields a single empty page. -/
theorem paginate_text_spec (text : String) (n : Nat) (hn : 1 ≤ n) :
    1 ≤ (paginate_text text n).length ∧
      (paginate_text text n).length = ((pySplitLines text).length + n - 1) / n ∧
      ((paginate_text text n).map pySplitLines).flatten = pySplitLines text ∧
      paginate_text "" n = [""] := by
  have hL : 1 ≤ (pySplitLines text).length := by
    unfold pySplitLines
    rw [List.length_map]
    exact List.length_pos.mpr (splitChar_ne_nil '\n' text.data)
  have hlen : (paginateLoop n (pySplitLines text) []).length
      = ((pySplitLines text).length + n - 1) / n := by
    have := paginateLoop_length n (pySplitLines text) [] (by simpa using hn)
    simpa using this
  have hpos : 1 ≤ (paginateLoop n (pySplitLines text) []).length := by
    rw [hlen]
    rw [Nat.le_div_iff_mul_le (by omega : 0 < n)]
    omega
  have hne : paginateLoop n (pySplitLines text) [] ≠ [] := by
    intro hl
    rw [hl] at hpos
    simp at hpos
  have hsplit_nonl : ∀ p ∈ pySplitLines text, '\n' ∉ p.data := by
    intro p hp
    unfold pySplitLines at hp
    rcases List.mem_map.mp hp with ⟨q, hq, rfl⟩
    exact splitChar_not_mem '\n' text.data q hq
  have hempty : paginate_text "" n = [""] := by
    have hsplit : pySplitLines "" = [""] := by decide
    unfold paginate_text
    rw [hsplit]
    by_cases h1 : n ≤ 1
    · have hn1 : n = 1 := by omega
      subst hn1
      simp [paginateLoop, show pyJoinLines [""] = "" from by decide]
    · simp [paginateLoop, h1, show pyJoinLines [""] = "" from by decide]
  refine ⟨?_, ?_, ?_, hempty⟩
  · unfold paginate_text
    simp only [hne, if_false]
    exact hpos
  · unfold paginate_text
    simp only [hne, if_false]
    exact hlen
  · unfold paginate_text
    simp only [hne, if_false]
    exact paginateLoop_flatten n (pySplitLines text) [] (by simp) hsplit_nonl

/-- C7 (witness): five lines split two per page give three pages that
re-concatenate to the original lines. -/
theorem paginate_text_spec_witness :
    1 ≤ (paginate_text "a\nb\nc\nd\ne" 2).length ∧
      (paginate_text "a\nb\nc\nd\ne" 2).length
        = ((pySplitLines "a\nb\nc\nd\ne").length + 2 - 1) / 2 ∧
      ((paginate_text "a\nb\nc\nd\ne" 2).map pySplitLines).flatten
        = pySplitLines "a\nb\nc\nd\ne" ∧
      paginate_text "" 2 = [""] :=
  paginate_text_spec "a\nb\nc\nd\ne" 2 (by decide)

/-! ### Engine lemmas -/

theorem process_input_eq_rest (core : BBSCore) (s : BBSSession) (input : String)
    (hw : s.waiting_for_continue = false) :
    core.process_input s input = core.process_input_rest s input := by
  unfold BBSCore.process_input
  rw [hw]
  simp

theorem menu_fallback_id (core : BBSCore) (s : BBSSession) (name : String) (menu : BBSMenu)
    (hm : s.current_menu = some name) (hne : name ≠ "")
    (hlk : List.lookup name core.menus = some menu) :
    core.menu_fallback s = s := by
  unfold BBSCore.menu_fallback
  rw [hm]
  dsimp only
  rw [if_neg]
  simp [hne, hlk]

theorem process_input_rest_eval (core : BBSCore) (s : BBSSession) (input name : String)
    (menu : BBSMenu)
    (hm : s.current_menu = some name) (hne : name ≠ "")
    (hlk : List.lookup name core.menus = some menu)
    (hpag : s.pagination_lines = none) :
    core.process_input_rest s input =
      (let p := menu.dispatch s (pyUpper (pyStrip input))
       let s3 := if strContainsSub p.2 "Goodbye" then { p.1 with is_active := false } else p.1
       (s3, p.2, !s3.waiting_for_continue)) := by
  unfold BBSCore.process_input_rest
  rw [menu_fallback_id core s name menu hm hne hlk]
  dsimp only
  rw [hm]
  dsimp only [Option.getD_some]
  rw [hlk]
  dsimp only
  unfold BBSMenu.handle_input
  rw [hpag]

example (s : BBSSession) (hm : s.current_menu = some "frontpage")
    (hw : s.waiting_for_continue = false) (hpag : s.pagination_lines = none) :
    (bbs_core.process_input s "?").1.waiting_for_continue = true := by
  rw [process_input_eq_rest bbs_core s "?" hw,
    process_input_rest_eval bbs_core s "?" "frontpage" frontpage_menu hm (by decide) rfl hpag]
  simp only []
  rw [show pyUpper (pyStrip "?") = "?" from rfl]
  rw [show frontpage_menu.dispatch s "?" = FrontPageMenu.show_help s "?" from rfl]
  rw [show FrontPageMenu.show_help s "?"
      = ({ s with waiting_for_continue := true },
         (FrontPageMenu.show_help s "?").2) from rfl]
  dsimp only
  split <;> rfl

theorem lookup_mem {α β : Type} [BEq α] {a : α} :
    ∀ {l : List (α × β)} {b : β}, List.lookup a l = some b → b ∈ l.map Prod.snd := by
  intro l
  induction l with
  | nil => intro b h; simp [List.lookup] at h
  | cons p rest ih =>
    intro b h
    rw [List.lookup] at h
    cases hpa : a == p.1 with
    | true =>
      rw [hpa] at h
      simp only [Option.some.injEq] at h
      simp [← h]
    | false =>
      rw [hpa] at h
      simp only [List.map_cons, List.mem_cons]
      exact Or.inr (ih h)

theorem handler_frame (h : MenuHandler)
    (hmem : h ∈ frontpage_menu.commands.map Prod.snd ∨ h ∈ main_menu.commands.map Prod.snd)
    (s : BBSSession) (t : String) :
    (h s t).1.is_active = s.is_active ∧
      ((h s t).1.current_menu = s.current_menu ∨ (h s t).1.current_menu = some "main") := by
  simp only [frontpage_menu, main_menu, List.map_cons, List.map_nil, List.mem_cons,
    List.not_mem_nil, or_false] at hmem
  rcases hmem with (rfl | rfl | rfl | rfl) | (rfl | rfl | rfl)
  · exact ⟨rfl, Or.inl rfl⟩
  · exact ⟨rfl, Or.inl rfl⟩
  · exact ⟨rfl, Or.inr rfl⟩
  · exact ⟨rfl, Or.inl rfl⟩
  · exact ⟨rfl, Or.inl rfl⟩
  · exact ⟨rfl, Or.inl rfl⟩
  · exact ⟨rfl, Or.inl rfl⟩

theorem dispatch_frame (menu : BBSMenu) (hm : menu = frontpage_menu ∨ menu = main_menu)
    (s : BBSSession) (t : String) :
    (menu.dispatch s t).1.is_active = s.is_active ∧
      ((menu.dispatch s t).1.current_menu = s.current_menu ∨
        (menu.dispatch s t).1.current_menu = some "main") := by
  unfold BBSMenu.dispatch
  cases h1 : List.lookup t menu.commands with
  | some handler =>
    dsimp only
    refine handler_frame handler ?_ s t
    rcases hm with rfl | rfl
    · exact Or.inl (lookup_mem h1)
    · exact Or.inr (lookup_mem h1)
  | none =>
    dsimp only
    cases h2 : List.lookup t aliases with
    | some canon =>
      dsimp only
      cases h3 : List.lookup canon menu.commands with
      | some handler =>
        dsimp only
        refine handler_frame handler ?_ s canon
        rcases hm with rfl | rfl
        · exact Or.inl (lookup_mem h3)
        · exact Or.inr (lookup_mem h3)
      | none => dsimp only; exact ⟨rfl, Or.inl rfl⟩
    | none => dsimp only; exact ⟨rfl, Or.inl rfl⟩

theorem handle_input_frame (menu : BBSMenu) (hm : menu = frontpage_menu ∨ menu = main_menu)
    (s : BBSSession) (raw : String) :
    (menu.handle_input s raw).1.is_active = s.is_active ∧
      ((menu.handle_input s raw).1.current_menu = s.current_menu ∨
        (menu.handle_input s raw).1.current_menu = some "main") := by
  unfold BBSMenu.handle_input
  cases hp : s.pagination_lines with
  | none => exact dispatch_frame menu hm s (pyUpper (pyStrip raw))
  | some plines =>
    dsimp only
    split
    · split
      · exact ⟨rfl, Or.inl rfl⟩
      · exact ⟨rfl, Or.inl rfl⟩
    · split
      · exact ⟨rfl, Or.inl rfl⟩
      · exact dispatch_frame menu hm _ (pyUpper (pyStrip raw))

theorem menu_fallback_frame (core : BBSCore) (s : BBSSession) :
    (core.menu_fallback s).connection_type = s.connection_type ∧
      (core.menu_fallback s).waiting_for_continue = s.waiting_for_continue ∧
      (core.menu_fallback s).is_active = s.is_active ∧
      (core.menu_fallback s).pagination_lines = s.pagination_lines := by
  unfold BBSCore.menu_fallback
  cases s.current_menu with
  | none => exact ⟨rfl, rfl, rfl, rfl⟩
  | some m =>
    dsimp only
    split
    · exact ⟨rfl, rfl, rfl, rfl⟩
    · exact ⟨rfl, rfl, rfl, rfl⟩

theorem menu_fallback_registered (s : BBSSession) :
    ∃ m, (bbs_core.menu_fallback s).current_menu = some m ∧
      (List.lookup m bbs_core.menus).isSome = true := by
  unfold BBSCore.menu_fallback
  cases hc : s.current_menu with
  | none => exact ⟨"frontpage", rfl, by decide⟩
  | some m =>
    dsimp only
    by_cases hbad : m = "" ∨ (List.lookup m bbs_core.menus).isNone = true
    · rw [if_pos hbad]
      exact ⟨"frontpage", rfl, by decide⟩
    · rw [if_neg hbad]
      push_neg at hbad
      refine ⟨m, hc, ?_⟩
      rcases hopt : List.lookup m bbs_core.menus with _ | menu
      · exact absurd (by rw [hopt]; rfl) hbad.2
      · rfl

theorem lookup_two {key : String} {menu : BBSMenu}
    (h : List.lookup key bbs_core.menus = some menu) :
    menu = frontpage_menu ∨ menu = main_menu := by
  simp only [bbs_core, List.lookup] at h
  split at h
  · exact Or.inl (Option.some.inj h).symm
  · split at h
    · exact Or.inr (Option.some.inj h).symm
    · exact absurd h (by simp)

theorem get_screen_fst (core : BBSCore) (s : BBSSession) :
    (core.get_screen s).1 = core.menu_fallback s := by
  unfold BBSCore.get_screen
  dsimp only
  split <;> rfl

theorem process_input_waiting_blank (core : BBSCore) (s : BBSSession) (input : String)
    (hw : s.waiting_for_continue = true) (hb : input = "" ∨ pyStrip input = "") :
    core.process_input s input =
      ((core.get_screen { s with waiting_for_continue := false }).1,
        (core.get_screen { s with waiting_for_continue := false }).2, false) := by
  unfold BBSCore.process_input
  rw [if_pos hw]
  dsimp only
  rw [if_pos hb]

theorem process_input_waiting_nonblank (core : BBSCore) (s : BBSSession) (input : String)
    (hw : s.waiting_for_continue = true) (hb : ¬(input = "" ∨ pyStrip input = "")) :
    core.process_input s input =
      core.process_input_rest { s with waiting_for_continue := false } input := by
  unfold BBSCore.process_input
  rw [if_pos hw]
  dsimp only
  rw [if_neg hb]

/-- A current-menu identifier the source's fallback treats as
unresolvable: unset (`None`), empty, or absent from the registry. -/
def unresolvable_current (core : BBSCore) (s : BBSSession) : Prop :=
  match s.current_menu with
  | none => True
  | some m => m = "" ∨ (List.lookup m core.menus).isNone = true

theorem menu_fallback_bad (core : BBSCore) (s : BBSSession)
    (h : unresolvable_current core s) :
    core.menu_fallback s = { s with current_menu := some "frontpage" } := by
  unfold BBSCore.menu_fallback
  unfold unresolvable_current at h
  cases hc : s.current_menu with
  | none => rfl
  | some m =>
    rw [hc] at h
    dsimp only at h ⊢
    rw [if_pos h]

theorem process_input_rest_registered (s : BBSSession) (input : String) :
    ∃ m, (bbs_core.process_input_rest s input).1.current_menu = some m ∧
      (List.lookup m bbs_core.menus).isSome = true := by
  obtain ⟨m, hm, hsome⟩ := menu_fallback_registered s
  unfold BBSCore.process_input_rest
  dsimp only
  cases hlk : List.lookup ((bbs_core.menu_fallback s).current_menu.getD "") bbs_core.menus with
  | none => exact ⟨m, hm, hsome⟩
  | some menu =>
    dsimp only
    have hmm := lookup_two hlk
    have hf := (handle_input_frame menu hmm (bbs_core.menu_fallback s) input).2
    rcases hh : menu.handle_input (bbs_core.menu_fallback s) input with ⟨s2, resp⟩
    rw [hh] at hf
    dsimp only at hf
    dsimp only
    split
    · rcases hf with hpres | hmain
      · exact ⟨m, by
          rw [show ({ s2 with is_active := false } : BBSSession).current_menu
              = s2.current_menu from rfl, hpres, hm], hsome⟩
      · exact ⟨"main", by
          rw [show ({ s2 with is_active := false } : BBSSession).current_menu
              = s2.current_menu from rfl, hmain], by decide⟩
    · rcases hf with hpres | hmain
      · exact ⟨m, by rw [hpres, hm], hsome⟩
      · exact ⟨"main", by rw [hmain], by decide⟩

theorem process_input_rest_bad (s : BBSSession) (input : String)
    (h : unresolvable_current bbs_core s) :
    bbs_core.process_input_rest s input
      = bbs_core.process_input_rest { s with current_menu := some "frontpage" } input := by
  unfold BBSCore.process_input_rest
  rw [menu_fallback_bad bbs_core s h,
    menu_fallback_id bbs_core { s with current_menu := some "frontpage" } "frontpage"
      frontpage_menu rfl (by decide) rfl]

theorem get_screen_bad (s : BBSSession) (h : unresolvable_current bbs_core s) :
    bbs_core.get_screen s
      = bbs_core.get_screen { s with current_menu := some "frontpage" } := by
  unfold BBSCore.get_screen
  rw [menu_fallback_bad bbs_core s h,
    menu_fallback_id bbs_core { s with current_menu := some "frontpage" } "frontpage"
      frontpage_menu rfl (by decide) rfl]

/-- C8: after `process_input` or `get_screen`, the session's current menu
identifier always resolves to a registered menu; when the stored
identifier is unset, empty, or not in the registry, both operations reset
it to the default "frontpage" identifier and proceed exactly as if the
session had started there. -/
theorem current_menu_always_registered (s : BBSSession) (input : String) :
    (∃ m, (bbs_core.process_input s input).1.current_menu = some m ∧
      (List.lookup m bbs_core.menus).isSome = true) ∧
    (∃ m, (bbs_core.get_screen s).1.current_menu = some m ∧
      (List.lookup m bbs_core.menus).isSome = true) ∧
    (unresolvable_current bbs_core s →
      (bbs_core.get_screen s).1.current_menu = some "frontpage") ∧
    (unresolvable_current bbs_core s →
      bbs_core.process_input s input
        = bbs_core.process_input { s with current_menu := some "frontpage" } input) := by
  refine ⟨?_, ?_, ?_, ?_⟩
  · by_cases hw : s.waiting_for_continue = true
    · by_cases hb : input = "" ∨ pyStrip input = ""
      · rw [process_input_waiting_blank bbs_core s input hw hb]
        dsimp only
        rw [get_screen_fst]
        exact menu_fallback_registered _
      · rw [process_input_waiting_nonblank bbs_core s input hw hb]
        exact process_input_rest_registered _ input
    · rw [process_input_eq_rest bbs_core s input (by simpa using hw)]
      exact process_input_rest_registered s input
  · rw [get_screen_fst]
    exact menu_fallback_registered s
  · intro h
    rw [get_screen_fst, menu_fallback_bad bbs_core s h]
  · intro h
    by_cases hw : s.waiting_for_continue = true
    · by_cases hb : input = "" ∨ pyStrip input = ""
      · rw [process_input_waiting_blank bbs_core s input hw hb,
          process_input_waiting_blank bbs_core { s with current_menu := some "frontpage" }
            input hw hb,
          get_screen_bad { s with waiting_for_continue := false } h]
      · rw [process_input_waiting_nonblank bbs_core s input hw hb,
          process_input_waiting_nonblank bbs_core { s with current_menu := some "frontpage" }
            input hw hb,
          process_input_rest_bad { s with waiting_for_continue := false } input h]
    · rw [process_input_eq_rest bbs_core s input (by simpa using hw),
        process_input_eq_rest bbs_core { s with current_menu := some "frontpage" } input
          (by simpa using hw),
        process_input_rest_bad s input h]

/-- C8 (witness): a session whose stored identifier "bogus" is not
registered is reset and dispatched as if at the front page. -/
theorem current_menu_always_registered_witness :
    (∃ m, (bbs_core.process_input
        ⟨ConnectionType.telnet, some "GUEST", false, some "bogus", false, true, none, 0, 20⟩
        "G").1.current_menu = some m ∧
      (List.lookup m bbs_core.menus).isSome = true) ∧
    (∃ m, (bbs_core.get_screen
        ⟨ConnectionType.telnet, some "GUEST", false, some "bogus", false, true, none, 0, 20⟩).1.current_menu
        = some m ∧
      (List.lookup m bbs_core.menus).isSome = true) ∧
    (unresolvable_current bbs_core
        ⟨ConnectionType.telnet, some "GUEST", false, some "bogus", false, true, none, 0, 20⟩ →
      (bbs_core.get_screen
        ⟨ConnectionType.telnet, some "GUEST", false, some "bogus", false, true, none, 0, 20⟩).1.current_menu
        = some "frontpage") ∧
    (unresolvable_current bbs_core
        ⟨ConnectionType.telnet, some "GUEST", false, some "bogus", false, true, none, 0, 20⟩ →
      bbs_core.process_input
          ⟨ConnectionType.telnet, some "GUEST", false, some "bogus", false, true, none, 0, 20⟩ "G"
        = bbs_core.process_input
            ⟨ConnectionType.telnet, some "GUEST", false, some "frontpage", false, true, none, 0, 20⟩
            "G") :=
  current_menu_always_registered
    ⟨ConnectionType.telnet, some "GUEST", false, some "bogus", false, true, none, 0, 20⟩ "G"

theorem process_input_rest_handle (core : BBSCore) (s : BBSSession) (input name : String)
    (menu : BBSMenu)
    (hm : s.current_menu = some name) (hne : name ≠ "")
    (hlk : List.lookup name core.menus = some menu) :
    core.process_input_rest s input =
      (let p := menu.handle_input s input
       let s3 := if strContainsSub p.2 "Goodbye" then { p.1 with is_active := false } else p.1
       (s3, p.2, !s3.waiting_for_continue)) := by
  unfold BBSCore.process_input_rest
  rw [menu_fallback_id core s name menu hm hne hlk]
  dsimp only
  rw [hm]
  dsimp only [Option.getD_some]
  rw [hlk]

theorem handle_input_pag_end (menu : BBSMenu) (s : BBSSession) (raw : String)
    (pages : List String) (hpag : s.pagination_lines = some pages)
    (htok : pyUpper (pyStrip raw) = "")
    (hlast : pages.length ≤ s.pagination_current_page + 1) :
    menu.handle_input s raw
      = ({ s with pagination_lines := none, pagination_current_page := 0, waiting_for_continue := false },
         menu.display { s with pagination_lines := none, pagination_current_page := 0, waiting_for_continue := false }) := by
  unfold BBSMenu.handle_input
  dsimp only
  rw [hpag, htok]
  dsimp only
  rw [if_pos (Or.inl rfl), if_pos hlast]

theorem handle_input_pag_next (menu : BBSMenu) (s : BBSSession) (raw : String)
    (pages : List String) (hpag : s.pagination_lines = some pages)
    (htok : pyUpper (pyStrip raw) = "")
    (hnext : s.pagination_current_page + 1 < pages.length) :
    menu.handle_input s raw
      = ({ s with pagination_current_page := s.pagination_current_page + 1 },
         format_pagination_page (pages.getD (s.pagination_current_page + 1) "")
           (s.pagination_current_page + 1) pages.length s.connection_type) := by
  unfold BBSMenu.handle_input
  dsimp only
  rw [hpag, htok]
  dsimp only
  rw [if_pos (Or.inl rfl), if_neg (by omega)]

theorem handle_input_pag_quit (menu : BBSMenu) (s : BBSSession) (raw : String)
    (pages : List String) (hpag : s.pagination_lines = some pages)
    (htok : pyUpper (pyStrip raw) = "Q") :
    menu.handle_input s raw
      = ({ s with pagination_lines := none, pagination_current_page := 0, waiting_for_continue := false },
         menu.display { s with pagination_lines := none, pagination_current_page := 0, waiting_for_continue := false }) := by
  unfold BBSMenu.handle_input
  dsimp only
  rw [hpag, htok]
  dsimp only
  rw [if_neg (by decide), if_pos rfl]

/-- C4: with the waiting-for-ack flag set, a blank or whitespace-only
line clears the flag and returns the full current-menu screen with
`should_show_menu = false`; a non-blank line clears the flag silently and
is processed exactly as a fresh command; and the help command sets the
flag (at either registered menu). -/
theorem waiting_ack_behavior (s : BBSSession) (input : String) :
    (s.waiting_for_continue = true → (input = "" ∨ pyStrip input = "") →
      bbs_core.process_input s input
        = ((bbs_core.get_screen { s with waiting_for_continue := false }).1,
           (bbs_core.get_screen { s with waiting_for_continue := false }).2, false) ∧
      (bbs_core.process_input s input).1.waiting_for_continue = false) ∧
    (s.waiting_for_continue = true → ¬(input = "" ∨ pyStrip input = "") →
      bbs_core.process_input s input
        = bbs_core.process_input { s with waiting_for_continue := false } input) ∧
    ((s.current_menu = some "frontpage" ∨ s.current_menu = some "main") →
      s.waiting_for_continue = false → s.pagination_lines = none →
      (bbs_core.process_input s "?").1.waiting_for_continue = true) := by
  refine ⟨?_, ?_, ?_⟩
  · intro hw hb
    refine ⟨process_input_waiting_blank bbs_core s input hw hb, ?_⟩
    rw [process_input_waiting_blank bbs_core s input hw hb]
    dsimp only
    rw [get_screen_fst]
    exact (menu_fallback_frame bbs_core _).2.1
  · intro hw hb
    rw [process_input_waiting_nonblank bbs_core s input hw hb,
      process_input_eq_rest bbs_core { s with waiting_for_continue := false } input rfl]
  · intro hmenu hw hpag
    rcases hmenu with hm | hm
    · rw [process_input_eq_rest bbs_core s "?" hw,
        process_input_rest_eval bbs_core s "?" "frontpage" frontpage_menu hm (by decide)
          rfl hpag]
      dsimp only
      rw [show pyUpper (pyStrip "?") = "?" from rfl,
        show frontpage_menu.dispatch s "?"
          = ({ s with waiting_for_continue := true },
             (FrontPageMenu.show_help s "?").2) from rfl]
      dsimp only
      split <;> rfl
    · rw [process_input_eq_rest bbs_core s "?" hw,
        process_input_rest_eval bbs_core s "?" "main" main_menu hm (by decide) rfl hpag]
      dsimp only
      rw [show pyUpper (pyStrip "?") = "?" from rfl,
        show main_menu.dispatch s "?"
          = ({ s with waiting_for_continue := true },
             (MainMenu.show_help s "?").2) from rfl]
      dsimp only
      split <;> rfl

/-- C4 (witness): a guest session at the front page that sent the help
command and then a blank acknowledgement. -/
theorem waiting_ack_behavior_witness :
    (bbs_core.process_input
        ⟨ConnectionType.telnet, some "GUEST", false, some "frontpage", true, true, none, 0, 20⟩ ""
      = ((bbs_core.get_screen
            ⟨ConnectionType.telnet, some "GUEST", false, some "frontpage", false, true, none, 0, 20⟩).1,
         (bbs_core.get_screen
            ⟨ConnectionType.telnet, some "GUEST", false, some "frontpage", false, true, none, 0, 20⟩).2,
         false) ∧
      (bbs_core.process_input
          ⟨ConnectionType.telnet, some "GUEST", false, some "frontpage", true, true, none, 0, 20⟩
          "").1.waiting_for_continue = false) :=
  (waiting_ack_behavior
      ⟨ConnectionType.telnet, some "GUEST", false, some "frontpage", true, true, none, 0, 20⟩
      "").1 rfl (Or.inl rfl)

/-- C2 (counterexample): with an active pagination cursor, blank input on
the last page does end pagination and return the full menu screen, but
the second component of `process_input` is `true`, not `false` (the
pagination branch clears `waiting_for_continue`, and `should_show_menu`
is its negation); and when the waiting-for-ack flag is set, blank input
bypasses pagination entirely, leaving the cursor in place. -/
theorem pagination_end_claim_false :
    (bbs_core.process_input
        ⟨ConnectionType.telnet, some "GUEST", false, some "main", false, true,
          some ["p1", "p2"], 1, 20⟩ "").2.2 = true ∧
      (bbs_core.process_input
        ⟨ConnectionType.telnet, some "GUEST", false, some "main", true, true,
          some ["p1", "p2"], 0, 20⟩ "").1.pagination_lines = some ["p1", "p2"] := by
  constructor
  · decide
  · decide

/-- C2 (amended): for a session with an active pagination cursor whose
waiting-for-ack flag is clear: blank input on the last page ends
pagination and returns the full menu screen with second component `true`;
input `Q` does the same; blank input with a next page remaining returns
the formatted next page with second component `true` and advances the
cursor.  If the waiting-for-ack flag is set, blank input instead takes
the acknowledgement path: it returns `(current full menu screen, false)`
and leaves the pagination cursor untouched. -/
theorem pagination_step_behavior (s : BBSSession) (input : String) (pages : List String)
    (name : String) (menu : BBSMenu)
    (hpag : s.pagination_lines = some pages)
    (hm : s.current_menu = some name) (hne : name ≠ "")
    (hlk : List.lookup name bbs_core.menus = some menu) :
    (s.waiting_for_continue = false → pyUpper (pyStrip input) = "" →
      pages.length ≤ s.pagination_current_page + 1 →
      (bbs_core.process_input s input).2.1
          = menu.display { s with pagination_lines := none, pagination_current_page := 0, waiting_for_continue := false } ∧
        (bbs_core.process_input s input).2.2 = true ∧
        (bbs_core.process_input s input).1.pagination_lines = none ∧
        (bbs_core.process_input s input).1.pagination_current_page = 0) ∧
    (s.waiting_for_continue = false → pyUpper (pyStrip input) = "Q" →
      (bbs_core.process_input s input).2.1
          = menu.display { s with pagination_lines := none, pagination_current_page := 0, waiting_for_continue := false } ∧
        (bbs_core.process_input s input).2.2 = true ∧
        (bbs_core.process_input s input).1.pagination_lines = none ∧
        (bbs_core.process_input s input).1.pagination_current_page = 0) ∧
    (s.waiting_for_continue = false → pyUpper (pyStrip input) = "" →
      s.pagination_current_page + 1 < pages.length →
      (bbs_core.process_input s input).2.1
          = format_pagination_page (pages.getD (s.pagination_current_page + 1) "")
              (s.pagination_current_page + 1) pages.length s.connection_type ∧
        (bbs_core.process_input s input).2.2 = true ∧
        (bbs_core.process_input s input).1.pagination_lines = some pages ∧
        (bbs_core.process_input s input).1.pagination_current_page
          = s.pagination_current_page + 1) ∧
    (s.waiting_for_continue = true → (input = "" ∨ pyStrip input = "") →
      (bbs_core.process_input s input).2.2 = false ∧
        (bbs_core.process_input s input).1.pagination_lines = some pages) := by
  refine ⟨?_, ?_, ?_, ?_⟩
  · intro hw htok hlast
    rw [process_input_eq_rest bbs_core s input hw,
      process_input_rest_handle bbs_core s input name menu hm hne hlk]
    dsimp only
    rw [handle_input_pag_end menu s input pages hpag htok hlast]
    dsimp only
    split <;> exact ⟨rfl, rfl, rfl, rfl⟩
  · intro hw htok
    rw [process_input_eq_rest bbs_core s input hw,
      process_input_rest_handle bbs_core s input name menu hm hne hlk]
    dsimp only
    rw [handle_input_pag_quit menu s input pages hpag htok]
    dsimp only
    split <;> exact ⟨rfl, rfl, rfl, rfl⟩
  · intro hw htok hnext
    rw [process_input_eq_rest bbs_core s input hw,
      process_input_rest_handle bbs_core s input name menu hm hne hlk]
    dsimp only
    rw [handle_input_pag_next menu s input pages hpag htok hnext]
    dsimp only
    split <;>
      exact ⟨rfl, by simp [hw], by dsimp only; exact hpag, rfl⟩
  · intro hw hb
    rw [process_input_waiting_blank bbs_core s input hw hb]
    dsimp only
    refine ⟨rfl, ?_⟩
    rw [get_screen_fst]
    have := (menu_fallback_frame bbs_core
      { s with waiting_for_continue := false }).2.2.2
    rw [this]
    exact hpag

/-- C2 (witness): a three-page pagination cursor at the main menu, on a
middle page, advanced by a blank line. -/
theorem pagination_step_behavior_witness :
    (bbs_core.process_input
        ⟨ConnectionType.telnet, some "GUEST", false, some "main", false, true,
          some ["p1", "p2", "p3"], 0, 20⟩ "").2.1
        = format_pagination_page ((["p1", "p2", "p3"] : List String).getD 1 "") 1
            (["p1", "p2", "p3"] : List String).length ConnectionType.telnet ∧
      (bbs_core.process_input
        ⟨ConnectionType.telnet, some "GUEST", false, some "main", false, true,
          some ["p1", "p2", "p3"], 0, 20⟩ "").2.2 = true ∧
      (bbs_core.process_input
        ⟨ConnectionType.telnet, some "GUEST", false, some "main", false, true,
          some ["p1", "p2", "p3"], 0, 20⟩ "").1.pagination_lines = some ["p1", "p2", "p3"] ∧
      (bbs_core.process_input
        ⟨ConnectionType.telnet, some "GUEST", false, some "main", false, true,
          some ["p1", "p2", "p3"], 0, 20⟩ "").1.pagination_current_page = 0 + 1 :=
  (pagination_step_behavior
      ⟨ConnectionType.telnet, some "GUEST", false, some "main", false, true,
        some ["p1", "p2", "p3"], 0, 20⟩ "" ["p1", "p2", "p3"] "main" main_menu
      rfl rfl (by decide) rfl).2.2.1 rfl rfl (by decide)

theorem rest_quit (s : BBSSession) (input : String)
    (hm : s.current_menu = some "main") (hpag : s.pagination_lines = none)
    (htok : pyUpper (pyStrip input) = "Q") :
    strContainsSub (bbs_core.process_input_rest s input).2.1 "Goodbye" = true ∧
      (bbs_core.process_input_rest s input).1.is_active = false := by
  rw [process_input_rest_eval bbs_core s input "main" main_menu hm (by decide) rfl hpag]
  dsimp only
  rw [htok,
    show main_menu.dispatch s "Q"
      = (s, "\n\nThank you for calling Station-64!\n\nGoodbye!\n") from rfl]
  dsimp only
  rw [if_pos (by decide)]
  exact ⟨by decide, rfl⟩

/-- C5 (counterexample): the claim's universal over "every session at the
main menu" fails.  With an active pagination cursor, `Q` aborts
pagination instead of quitting: the response is the redisplayed menu
without the goodbye marker and the liveness flag stays set.  And for a
session whose liveness flag is already cleared, the flag is cleared after
processing an input whose output lacks the marker, breaking the claimed
equivalence. -/
theorem quit_marker_claim_fails :
    (bbs_core.process_input
        ⟨ConnectionType.telnet, some "GUEST", false, some "main", false, true,
          some ["a", "b", "c"], 0, 20⟩ "Q").1.is_active = true ∧
      strContainsSub (bbs_core.process_input
        ⟨ConnectionType.telnet, some "GUEST", false, some "main", false, true,
          some ["a", "b", "c"], 0, 20⟩ "Q").2.1 "Goodbye" = false ∧
      (bbs_core.process_input
        ⟨ConnectionType.telnet, some "GUEST", false, some "main", false, false,
          none, 0, 20⟩ "?").1.is_active = false ∧
      strContainsSub (bbs_core.process_input
        ⟨ConnectionType.telnet, some "GUEST", false, some "main", false, false,
          none, 0, 20⟩ "?").2.1 "Goodbye" = false := by
  refine ⟨by decide, by decide, by decide, by decide⟩

/-- C5 (amended): for a session at the main menu with no active
pagination cursor, the quit command returns the goodbye response
(containing the "Goodbye" marker) and clears the liveness flag; and for
any session whose liveness flag is set and waiting-for-ack flag is clear,
the liveness flag ends up cleared if and only if the produced response
contains the marker. -/
theorem quit_goodbye_liveness (s : BBSSession) (input : String) :
    (s.current_menu = some "main" → s.pagination_lines = none →
      pyUpper (pyStrip input) = "Q" →
      strContainsSub (bbs_core.process_input s input).2.1 "Goodbye" = true ∧
        (bbs_core.process_input s input).1.is_active = false) ∧
    (s.is_active = true → s.waiting_for_continue = false →
      ((bbs_core.process_input s input).1.is_active = false ↔
        strContainsSub (bbs_core.process_input s input).2.1 "Goodbye" = true)) := by
  constructor
  · intro hm hpag htok
    have hblank : ¬(input = "" ∨ pyStrip input = "") := by
      rintro (rfl | hps)
      · rw [show pyStrip "" = "" from rfl, show pyUpper "" = "" from rfl] at htok
        exact absurd htok (by decide)
      · rw [hps, show pyUpper "" = "" from rfl] at htok
        exact absurd htok (by decide)
    by_cases hw : s.waiting_for_continue = true
    · rw [process_input_waiting_nonblank bbs_core s input hw hblank]
      exact rest_quit { s with waiting_for_continue := false } input hm hpag htok
    · rw [process_input_eq_rest bbs_core s input (by simpa using hw)]
      exact rest_quit s input hm hpag htok
  · intro hact hw
    rw [process_input_eq_rest bbs_core s input hw]
    unfold BBSCore.process_input_rest
    dsimp only
    cases hlk : List.lookup ((bbs_core.menu_fallback s).current_menu.getD "") bbs_core.menus with
    | none =>
      dsimp only
      constructor
      · intro hfalse
        rw [(menu_fallback_frame bbs_core s).2.2.1, hact] at hfalse
        exact absurd hfalse (by decide)
      · intro hc
        exact absurd hc (by decide)
    | some menu =>
      dsimp only
      have hia := (handle_input_frame menu (lookup_two hlk) (bbs_core.menu_fallback s) input).1
      rcases hh : menu.handle_input (bbs_core.menu_fallback s) input with ⟨s2, resp⟩
      rw [hh] at hia
      dsimp only at hia
      dsimp only
      have hs2 : s2.is_active = true := by
        rw [hia, (menu_fallback_frame bbs_core s).2.2.1, hact]
      by_cases hc : strContainsSub resp "Goodbye" = true
      · rw [if_pos hc]
        simp [hc]
      · rw [if_neg hc]
        simp [hs2, hc]

/-- C5 (witness): a guest session at the main menu sending `Q`. -/
theorem quit_goodbye_liveness_witness :
    (strContainsSub (bbs_core.process_input
        ⟨ConnectionType.telnet, some "GUEST", false, some "main", false, true, none, 0, 20⟩
        "Q").2.1 "Goodbye" = true ∧
      (bbs_core.process_input
        ⟨ConnectionType.telnet, some "GUEST", false, some "main", false, true, none, 0, 20⟩
        "Q").1.is_active = false) ∧
    ((bbs_core.process_input
        ⟨ConnectionType.telnet, some "GUEST", false, some "main", false, true, none, 0, 20⟩
        "Q").1.is_active = false ↔
      strContainsSub (bbs_core.process_input
        ⟨ConnectionType.telnet, some "GUEST", false, some "main", false, true, none, 0, 20⟩
        "Q").2.1 "Goodbye" = true) :=
  ⟨(quit_goodbye_liveness
      ⟨ConnectionType.telnet, some "GUEST", false, some "main", false, true, none, 0, 20⟩
      "Q").1 rfl rfl rfl,
   (quit_goodbye_liveness
      ⟨ConnectionType.telnet, some "GUEST", false, some "main", false, true, none, 0, 20⟩
      "Q").2 rfl rfl⟩

/-- C9: when the session is not waiting for an acknowledgement and not
paginating, an input whose trimmed-and-uppercased token matches neither
the current registered menu's command table nor a resolvable alias
produces exactly the colorized invalid-command message (which quotes the
token and points at the `?` help command) and leaves the waiting-for-ack
flag and the current menu identifier unchanged. -/
theorem invalid_command_frame (s : BBSSession) (input name : String) (menu : BBSMenu)
    (hw : s.waiting_for_continue = false) (hpag : s.pagination_lines = none)
    (hm : s.current_menu = some name) (hne : name ≠ "")
    (hlk : List.lookup name bbs_core.menus = some menu)
    (hcmd : List.lookup (pyUpper (pyStrip input)) menu.commands = none)
    (halias : ∀ canon, List.lookup (pyUpper (pyStrip input)) aliases = some canon →
      List.lookup canon menu.commands = none) :
    (bbs_core.process_input s input).2.1
        = invalid_command_message s.connection_type (pyUpper (pyStrip input)) ∧
      (bbs_core.process_input s input).1.waiting_for_continue = s.waiting_for_continue ∧
      (bbs_core.process_input s input).1.current_menu = s.current_menu := by
  rw [process_input_eq_rest bbs_core s input hw,
    process_input_rest_eval bbs_core s input name menu hm hne hlk hpag]
  have hd : menu.dispatch s (pyUpper (pyStrip input))
      = (s, invalid_command_message s.connection_type (pyUpper (pyStrip input))) := by
    unfold BBSMenu.dispatch
    rw [hcmd]
    dsimp only
    cases ha : List.lookup (pyUpper (pyStrip input)) aliases with
    | none => dsimp only
    | some canon =>
      dsimp only
      rw [halias canon ha]
  dsimp only
  rw [hd]
  dsimp only
  split <;> exact ⟨rfl, rfl, rfl⟩

/-- C9 (witness): the unknown token `xyzzy` at the front page. -/
theorem invalid_command_frame_witness :
    (bbs_core.process_input
        ⟨ConnectionType.telnet, some "GUEST", false, some "frontpage", false, true, none, 0, 20⟩
        "xyzzy").2.1
        = invalid_command_message ConnectionType.telnet (pyUpper (pyStrip "xyzzy")) ∧
      (bbs_core.process_input
        ⟨ConnectionType.telnet, some "GUEST", false, some "frontpage", false, true, none, 0, 20⟩
        "xyzzy").1.waiting_for_continue = false ∧
      (bbs_core.process_input
        ⟨ConnectionType.telnet, some "GUEST", false, some "frontpage", false, true, none, 0, 20⟩
        "xyzzy").1.current_menu = some "frontpage" :=
  invalid_command_frame
    ⟨ConnectionType.telnet, some "GUEST", false, some "frontpage", false, true, none, 0, 20⟩
    "xyzzy" "frontpage" frontpage_menu rfl rfl rfl (by decide) rfl rfl
    (fun canon hc => by
      rw [show List.lookup (pyUpper (pyStrip "xyzzy")) aliases = (none : Option String)
        from rfl] at hc
      exact Option.noConfusion hc)

/-- C10: alias dispatch is gated per menu.  For any menu, when the token
is absent from the command table but present in the alias table, the
aliased handler runs only if the alias's canonical token is itself in
that menu's command table; otherwise the input falls through to the
invalid-command message.  In particular `QUIT` and `EXIT` at the front
page (which has no `Q` command) produce the invalid-command message
rather than invoking any handler. -/
theorem alias_gated_per_menu (menu : BBSMenu) (s : BBSSession) (input canon : String)
    (hpag : s.pagination_lines = none)
    (hcmd : List.lookup (pyUpper (pyStrip input)) menu.commands = none)
    (ha : List.lookup (pyUpper (pyStrip input)) aliases = some canon) :
    (List.lookup canon menu.commands = none →
      menu.handle_input s input
        = (s, invalid_command_message s.connection_type (pyUpper (pyStrip input)))) ∧
    (∀ handler, List.lookup canon menu.commands = some handler →
      menu.handle_input s input = handler s canon) ∧
    (∀ s2 : BBSSession, s2.pagination_lines = none →
      frontpage_menu.handle_input s2 "QUIT"
          = (s2, invalid_command_message s2.connection_type "QUIT") ∧
        frontpage_menu.handle_input s2 "EXIT"
          = (s2, invalid_command_message s2.connection_type "EXIT")) := by
  have he : menu.handle_input s input = menu.dispatch s (pyUpper (pyStrip input)) := by
    unfold BBSMenu.handle_input
    rw [hpag]
  refine ⟨?_, ?_, ?_⟩
  · intro hnone
    rw [he]
    unfold BBSMenu.dispatch
    rw [hcmd]
    dsimp only
    rw [ha]
    dsimp only
    rw [hnone]
  · intro handler hsome
    rw [he]
    unfold BBSMenu.dispatch
    rw [hcmd]
    dsimp only
    rw [ha]
    dsimp only
    rw [hsome]
  · intro s2 hp2
    constructor
    · have he2 : frontpage_menu.handle_input s2 "QUIT"
          = frontpage_menu.dispatch s2 (pyUpper (pyStrip "QUIT")) := by
        unfold BBSMenu.handle_input
        rw [hp2]
      rw [he2]
      rfl
    · have he2 : frontpage_menu.handle_input s2 "EXIT"
          = frontpage_menu.dispatch s2 (pyUpper (pyStrip "EXIT")) := by
        unfold BBSMenu.handle_input
        rw [hp2]
      rw [he2]
      rfl

/-- C10 (witness): `QUIT` at the front page falls through to the
invalid-command message even though the alias table maps it to `Q`. -/
theorem alias_gated_per_menu_witness :
    frontpage_menu.handle_input
        ⟨ConnectionType.telnet, some "GUEST", false, some "frontpage", false, true, none, 0, 20⟩
        "QUIT"
      = (⟨ConnectionType.telnet, some "GUEST", false, some "frontpage", false, true, none, 0, 20⟩,
         invalid_command_message ConnectionType.telnet (pyUpper (pyStrip "QUIT"))) :=
  (alias_gated_per_menu frontpage_menu
      ⟨ConnectionType.telnet, some "GUEST", false, some "frontpage", false, true, none, 0, 20⟩
      "QUIT" "Q" rfl rfl rfl).1 rfl
